import Mathlib

/-!
Shallow embedding of the AltSourceParser repository (src/src/altparse):
the entity model (`model.py`), the id helpers (`helpers.py`), the
AltSource parser (`parsers.py`) and the merge engine
(`core.py`, class `AltSourceManager`).

Modelling conventions:
* Python dict-backed entities store every field in a string-keyed map, where
  a key can be absent, present with value `None`, or present with a value.
  We model each known schema key as an `Entry` field (`absent` / `null` /
  `val`); the extra unknown keys a document may carry are outside the model
  (no claim depends on them).
* Fallible Python code (raised exceptions) is modelled with
  `Except PyErr`; `PyErr` distinguishes the exception classes that the
  merge loop in `AltSourceManager.update` catches from the ones it does not.
* `packaging.version.parse` is modelled on the plain-release fragment of
  PEP 440: a dot-separated list of decimal numerals parses to its list of
  components, compared after stripping trailing zeros (exactly the release
  comparison `packaging` performs on such strings); any other string is a
  parse failure (`InvalidVersion`).  All concrete inputs used below stay
  inside this fragment or are strings `packaging` also rejects.
* `helpers.parse_github_datetime` (`strptime`) is modelled by reading a
  timestamp abstractly as a decimal string; a non-numeric string fails with
  `ValueError` just as a malformed timestamp does.
* Network and package-inspection collaborators (downloads, IPA inspection)
  are out-of-scope collaborators per the repository's design; their outcomes
  enter the model as data carried by each provider-configuration entry and
  by an enrichment oracle.
-/

/-- Python exception classes that appear in the embedded code paths. -/
inductive PyErr where
  /-- packaging.version.InvalidVersion (malformed version string). -/
  | invalidVersion
  /-- altparse.errors.AltSourceError (also base of GitHubError etc.). -/
  | altSourceError
  /-- altparse.errors.ArgumentTypeError (subclass of AltSourceError). -/
  | argumentTypeError
  /-- json.JSONDecodeError. -/
  | jsonDecodeError
  /-- requests.RequestException / requests.ConnectionError. -/
  | requestsError
  /-- StopIteration (no qualifying asset found). -/
  | stopIteration
  /-- NotImplementedError. -/
  | notImplementedError
  /-- TypeError (e.g. iterating or indexing None). -/
  | typeError
  /-- IndexError (out-of-range list access). -/
  | indexError
  /-- KeyError (missing dict key). -/
  | keyError
  /-- ValueError (e.g. datetime.strptime on a malformed string). -/
  | valueError
  /-- AttributeError (access of an attribute that does not exist). -/
  | attributeError
deriving DecidableEq, Repr

/-- Exception classes caught by the per-entry `except` clauses of
`AltSourceManager.update` (core.py lines 198-210): JSONDecodeError,
InvalidVersion, the requests errors, AltSourceError with its subclasses,
and StopIteration.  Everything else propagates out of `update`. -/
def PyErr.caught : PyErr → Bool
  | .invalidVersion | .altSourceError | .argumentTypeError
  | .jsonDecodeError | .requestsError | .stopIteration => true
  | _ => false

/-- State of one key of a Python dict-backed entity: the key can be missing,
present with value `None`, or present with a value. -/
inductive Entry (α : Type) where
  | absent
  | null
  | val (a : α)
deriving DecidableEq, Repr

namespace Entry

/-- Value of `self._src.get(key)`: `None` for a missing key and for a key
holding `None`, otherwise the stored value. -/
def get : Entry α → Option α
  | .absent => none
  | .null => none
  | .val a => some a

/-- Result of `key in self._src.keys()`. -/
def present : Entry α → Bool
  | .absent => false
  | _ => true

/-- Storing the result of a `.get` back into a dict key (`d[k] = other.get(k)`):
the key becomes present, holding `None` when the source had none. -/
def ofOption : Option α → Entry α
  | none => .null
  | some a => .val a

end Entry

/-- Python truthiness-based `x or y` on two optional strings: `None` and the
empty string are falsy. -/
def pyOr (x y : Option String) : Option String :=
  match x with
  | some s => if s = "" then y else some s
  | none => y

/-- Python `metadata.get("version") or parser.version`: falls back to the
default when the first operand is `None` or empty. -/
def pyOrS (x : Option String) (d : String) : String :=
  match x with
  | some s => if s = "" then d else s
  | none => d

/-! ### packaging.version.parse, restricted to plain release versions -/

/-- Numeric value of a list of decimal digit characters. -/
def digitsToNat (cs : List Char) : Nat :=
  cs.foldl (fun n c => n * 10 + (c.toNat - 48)) 0

/-- Split a character list on the dot separator (the semantics of Python's
`"...".split(".")`: an empty input yields one empty part). -/
def splitDots : List Char → List (List Char)
  | [] => [[]]
  | c :: rest =>
    let r := splitDots rest
    if c = '.' then [] :: r
    else
      match r with
      | [] => [[c]]
      | h :: t => (c :: h) :: t

/-- Parse one dot-separated component: a nonempty run of decimal digits. -/
def parseComponent (cs : List Char) : Option Nat :=
  if !cs.isEmpty && cs.all Char.isDigit then some (digitsToNat cs) else none

/-- Release fragment of `packaging.version.parse`: a dot-separated list of
numerals parses to its components; anything else is `InvalidVersion`.
(`packaging` accepts more shapes - epochs, pre/post/dev segments - but every
concrete version string used in this development is either a plain release,
where `packaging` behaves exactly like this model, or a string that
`packaging` also rejects.) -/
def relParse (s : String) : Option (List Nat) :=
  let parts := splitDots s.data
  if parts.all (fun p => (parseComponent p).isSome) then
    some (parts.map (fun p => (parseComponent p).getD 0))
  else none

/-- Comparison key of a parsed release: `packaging` drops trailing zeros
before comparing release tuples. -/
def relKey (l : List Nat) : List Nat :=
  (l.reverse.dropWhile (· = 0)).reverse

/-- Lexicographic order on integer tuples, as Python compares tuples:
a strict prefix is smaller. -/
def natListLt : List Nat → List Nat → Bool
  | _, [] => false
  | [], _ :: _ => true
  | a :: as, b :: bs =>
    if a < b then true else if b < a then false else natListLt as bs

/-- Strict `<` of two parsed versions (on their comparison keys). -/
def relLt (x y : List Nat) : Bool := natListLt (relKey x) (relKey y)

/-- Strict `>` of two parsed versions. -/
def relGt (x y : List Nat) : Bool := natListLt (relKey y) (relKey x)

/-- Equality of two parsed versions (equal comparison keys). -/
def relEq (x y : List Nat) : Bool := relKey x = relKey y

/-- Evaluation of `packaging.version.parse(s)` where `s` came from a
dict-backed property: `version.parse(None)` raises `TypeError`, a malformed
string raises `InvalidVersion`. -/
def parseVer : Option String → Except PyErr (List Nat)
  | none => .error .typeError
  | some s =>
    match relParse s with
    | none => .error .invalidVersion
    | some r => .ok r

/-- Evaluation of `helpers.parse_github_datetime` on an optional string:
`strptime(None, ...)` raises `TypeError`; a malformed timestamp raises
`ValueError`.  Well-formed timestamps are modelled abstractly as decimal
strings ordered by their numeric value. -/
def dateParse : Option String → Except PyErr Nat
  | none => .error .typeError
  | some s =>
    if !s.data.isEmpty && s.data.all Char.isDigit then .ok (digitsToNat s.data)
    else .error .valueError

/-! ### AltSource.App.Permissions (model.py lines 62-248) -/

/-- AltSource.App.Permissions.Entitlement: dict with required key `name`. -/
structure Entitlement where
  name : Entry String
deriving DecidableEq, Repr

/-- Required keys of an Entitlement (`_required_keys = ["name"]`). -/
def Entitlement.requiredKeys : List String := ["name"]

/-- Key presence test on an Entitlement dict. -/
def Entitlement.hasKey (e : Entitlement) : String → Bool
  | "name" => e.name.present
  | _ => false

/-- Entitlement.missing_keys. -/
def Entitlement.missingKeys (e : Entitlement) : List String :=
  Entitlement.requiredKeys.filter (fun k => ! e.hasKey k)

/-- Entitlement.is_valid. -/
def Entitlement.is_valid (e : Entitlement) : Bool :=
  e.missingKeys.isEmpty

/-- AltSource.App.Permissions.Privacy: dict with required keys
`name` and `usageDescription`. -/
structure Privacy where
  name : Entry String
  usageDescription : Entry String
deriving DecidableEq, Repr

/-- Required keys of a Privacy permission. -/
def Privacy.requiredKeys : List String := ["name", "usageDescription"]

/-- Key presence test on a Privacy dict. -/
def Privacy.hasKey (p : Privacy) : String → Bool
  | "name" => p.name.present
  | "usageDescription" => p.usageDescription.present
  | _ => false

/-- Privacy.missing_keys. -/
def Privacy.missingKeys (p : Privacy) : List String :=
  Privacy.requiredKeys.filter (fun k => ! p.hasKey k)

/-- Privacy.is_valid. -/
def Privacy.is_valid (p : Privacy) : Bool :=
  p.missingKeys.isEmpty

/-- AltSource.App.Permissions: dict holding the entitlement and privacy
lists; its `_required_keys` list is empty. -/
structure Permissions where
  entitlements : Entry (List Entitlement)
  privacy : Entry (List Privacy)
deriving DecidableEq, Repr

/-- Required keys of Permissions (`_required_keys = []`). -/
def Permissions.requiredKeys : List String := []

/-- Permissions.missing_keys: filters the (empty) required-key list. -/
def Permissions.missingKeys (_p : Permissions) : List String :=
  Permissions.requiredKeys.filter (fun _ => true)

/-- Permissions.is_valid. -/
def Permissions.is_valid (p : Permissions) : Bool :=
  p.missingKeys.isEmpty

/-- Permissions created with `Permissions(None)` (the brand-new branch of
`__init__`): entitlements and privacy both present and empty. -/
def Permissions.empty : Permissions :=
  { entitlements := .val [], privacy := .val [] }

/-- Construction `AltSource.App.Permissions(src)` from an optional source
dict: `None` yields the brand-new empty object, a dict is wrapped as-is
(the nested wrapping of entitlement/privacy dicts is the identity in this
typed model). -/
def Permissions.init : Option Permissions → Permissions
  | none => Permissions.empty
  | some p => p

/-! ### AltSource.App.Version (model.py lines 250-404) -/

/-- AltSource.App.Version: dict-backed record over its schema keys. -/
structure Version where
  version : Entry String
  absoluteVersion : Entry String
  buildVersion : Entry String
  date : Entry String
  localizedDescription : Entry String
  downloadURL : Entry String
  size : Entry Int
  sha256 : Entry String
  minOSVersion : Entry String
  maxOSVersion : Entry String
deriving DecidableEq, Repr

/-- Version with every key absent (building block for literals). -/
def Version.blank : Version :=
  { version := .absent, absoluteVersion := .absent, buildVersion := .absent,
    date := .absent, localizedDescription := .absent, downloadURL := .absent,
    size := .absent, sha256 := .absent, minOSVersion := .absent,
    maxOSVersion := .absent }

/-- Required keys of a Version
(`_required_keys = ['version', 'date', 'downloadURL', 'size']`). -/
def Version.requiredKeys : List String := ["version", "date", "downloadURL", "size"]

/-- Key presence test on a Version dict (restricted to schema keys). -/
def Version.hasKey (v : Version) : String → Bool
  | "version" => v.version.present
  | "absoluteVersion" => v.absoluteVersion.present
  | "buildVersion" => v.buildVersion.present
  | "date" => v.date.present
  | "localizedDescription" => v.localizedDescription.present
  | "downloadURL" => v.downloadURL.present
  | "size" => v.size.present
  | "sha256" => v.sha256.present
  | "minOSVersion" => v.minOSVersion.present
  | "maxOSVersion" => v.maxOSVersion.present
  | _ => false

/-- Version.missing_keys. -/
def Version.missingKeys (v : Version) : List String :=
  Version.requiredKeys.filter (fun k => ! v.hasKey k)

/-- Version.is_valid. -/
def Version.is_valid (v : Version) : Bool :=
  v.missingKeys.isEmpty

/-- Display-version comparison shared by `__lt__` and `__gt__`
(model.py lines 275-281 and 289-295): compare the parsed `version` fields
under the strict order `rel`; on a tie, compare the parsed `buildVersion`
fields when both are set; any remaining case is `False`. -/
def Version.cmpDisplay (rel : List Nat → List Nat → Bool) (a b : Version) :
    Except PyErr Bool :=
  match parseVer a.version.get with
  | .error e => .error e
  | .ok pa =>
    match parseVer b.version.get with
    | .error e => .error e
    | .ok pb =>
      if rel pa pb then .ok true
      else if relEq pa pb then
        match a.buildVersion.get, b.buildVersion.get with
        | some ba, some bb =>
          match parseVer (some ba) with
          | .error e => .error e
          | .ok qa =>
            match parseVer (some bb) with
            | .error e => .error e
            | .ok qb => .ok (rel qa qb)
        | _, _ => .ok false
      else .ok false

/-- Version.__lt__ (model.py lines 269-282).  When both sides carry
`absoluteVersion`, the comparison of the parsed absolute versions is
returned directly (early return on both outcomes); otherwise the display
versions are compared, with `buildVersion` as tie-break when both are set. -/
def Version.lt (a b : Version) : Except PyErr Bool :=
  match a.absoluteVersion.get, b.absoluteVersion.get with
  | some x, some y =>
    match parseVer (some x) with
    | .error e => .error e
    | .ok px =>
      match parseVer (some y) with
      | .error e => .error e
      | .ok py => .ok (relLt px py)
  | _, _ => Version.cmpDisplay relLt a b

/-- Version.__gt__ (model.py lines 284-296).  Unlike `__lt__`, the
absoluteVersion branch only early-returns when the parsed absolute version
is strictly greater; otherwise control falls through to the display-version
comparison. -/
def Version.gt (a b : Version) : Except PyErr Bool :=
  match a.absoluteVersion.get, b.absoluteVersion.get with
  | some x, some y =>
    match parseVer (some x) with
    | .error e => .error e
    | .ok px =>
      match parseVer (some y) with
      | .error e => .error e
      | .ok py =>
        if relGt px py then .ok true
        else Version.cmpDisplay relGt a b
  | _, _ => Version.cmpDisplay relGt a b

/-! ### AltSource.Article (model.py lines 658-761) -/

/-- AltSource.Article: news article dict. -/
structure Article where
  title : Entry String
  identifier : Entry String
  caption : Entry String
  date : Entry String
  tintColor : Entry String
  imageURL : Entry String
  notify : Entry Bool
  url : Entry String
  appID : Entry String
deriving DecidableEq, Repr

/-- Required keys of an Article
(`_required_keys = ["title", "identifier", "caption", "date"]`). -/
def Article.requiredKeys : List String := ["title", "identifier", "caption", "date"]

/-- Key presence test on an Article dict. -/
def Article.hasKey (a : Article) : String → Bool
  | "title" => a.title.present
  | "identifier" => a.identifier.present
  | "caption" => a.caption.present
  | "date" => a.date.present
  | "tintColor" => a.tintColor.present
  | "imageURL" => a.imageURL.present
  | "notify" => a.notify.present
  | "url" => a.url.present
  | "appID" => a.appID.present
  | _ => false

/-- Article.missing_keys. -/
def Article.missingKeys (a : Article) : List String :=
  Article.requiredKeys.filter (fun k => ! a.hasKey k)

/-- Article.is_valid. -/
def Article.is_valid (a : Article) : Bool :=
  a.missingKeys.isEmpty

/-! ### AltSource.App (model.py lines 60-656) -/

/-- AltSource.App: dict-backed record over its schema keys; the deprecated
top-level mirror fields (`version`, `versionDate`, `versionDescription`,
`downloadURL`, `size`) are kept alongside the `versions` list. -/
structure App where
  name : Entry String
  bundleIdentifier : Entry String
  developerName : Entry String
  subtitle : Entry String
  localizedDescription : Entry String
  iconURL : Entry String
  tintColor : Entry String
  versions : Entry (List Version)
  appPermissions : Entry Permissions
  appID : Entry String
  version : Entry String
  versionDate : Entry String
  versionDescription : Entry String
  downloadURL : Entry String
  size : Entry Int
deriving DecidableEq, Repr

/-- App with every key absent (building block for literals). -/
def App.blank : App :=
  { name := .absent, bundleIdentifier := .absent, developerName := .absent,
    subtitle := .absent, localizedDescription := .absent, iconURL := .absent,
    tintColor := .absent, versions := .absent, appPermissions := .absent,
    appID := .absent, version := .absent, versionDate := .absent,
    versionDescription := .absent, downloadURL := .absent, size := .absent }

/-- Required keys of an App (`_required_keys = ["name", "bundleIdentifier",
"developerName", "versions", "localizedDescription", "iconURL"]`). -/
def App.requiredKeys : List String :=
  ["name", "bundleIdentifier", "developerName", "versions",
   "localizedDescription", "iconURL"]

/-- Key presence test on an App dict (restricted to schema keys). -/
def App.hasKey (a : App) : String → Bool
  | "name" => a.name.present
  | "bundleIdentifier" => a.bundleIdentifier.present
  | "developerName" => a.developerName.present
  | "subtitle" => a.subtitle.present
  | "localizedDescription" => a.localizedDescription.present
  | "iconURL" => a.iconURL.present
  | "tintColor" => a.tintColor.present
  | "versions" => a.versions.present
  | "appPermissions" => a.appPermissions.present
  | "appID" => a.appID.present
  | "version" => a.version.present
  | "versionDate" => a.versionDate.present
  | "versionDescription" => a.versionDescription.present
  | "downloadURL" => a.downloadURL.present
  | "size" => a.size.present
  | _ => false

/-- App.missing_keys. -/
def App.missingKeys (a : App) : List String :=
  App.requiredKeys.filter (fun k => ! a.hasKey k)

/-- Value of the `versions` property, `self._src.get("versions", [])`:
the stored list, the dict default `[]` when the key is absent, and `None`
when the key is present holding `None`. -/
def App.versionsProp (a : App) : Option (List Version) :=
  match a.versions with
  | .absent => some []
  | .null => none
  | .val l => some l

/-- App.is_valid (model.py lines 468-481).  Note the code requires
`len(self.versions) > 1` in the versions branch (not `>= 1`), before
falling back to the legacy top-level fields. -/
def App.is_valid (a : App) : Bool :=
  let validVersionsNew :=
    match a.versionsProp with
    | none => false
    | some l => decide (l.length > 1) && l.all Version.is_valid
  let validVersions :=
    validVersionsNew ||
      (a.version.get.isSome && a.downloadURL.get.isSome && a.versionDate.get.isSome)
  let validPerms :=
    match a.appPermissions.get with
    | none => true
    | some p => p.is_valid
  validVersions && validPerms && a.missingKeys.isEmpty

/-- App.latest_version (model.py lines 483-486).  With `use_dates` the
versions are stably sorted by parsed date and the last is taken; without it
the element at index 0 is returned.  An empty list raises `IndexError`, a
`None` versions value raises `TypeError`. -/
def App.latest_version (a : App) (useDates : Bool) : Except PyErr Version :=
  match a.versionsProp with
  | none => .error .typeError
  | some vs =>
    if useDates then do
      let keyed ← vs.mapM (fun v => do
        let k ← dateParse v.date.get
        pure (v, k))
      let sorted := keyed.foldl (fun acc x => insertByDate x acc) []
      match sorted.getLast? with
      | none => .error .indexError
      | some p => .ok p.1
    else
      match vs with
      | [] => .error .indexError
      | v :: _ => .ok v
where
  /-- Stable ascending insertion by the parsed date key (an element is
  placed after every element with a key less than or equal to its own),
  matching Python's stable `sorted`. -/
  insertByDate (x : Version × Nat) : List (Version × Nat) → List (Version × Nat)
    | [] => [x]
    | y :: ys => if y.2 ≤ x.2 then y :: insertByDate x ys else x :: y :: ys

/-- App._update_old_version_util (model.py lines 497-505): writes the given
Version's fields into the deprecated top-level keys (each key becomes
present, holding `None` when the Version lacks the field). -/
def App.updateOldVersionUtil (a : App) (ver : Version) : App :=
  { a with
    version := Entry.ofOption ver.version.get,
    size := Entry.ofOption ver.size.get,
    downloadURL := Entry.ofOption ver.downloadURL.get,
    versionDate := Entry.ofOption ver.date.get,
    versionDescription := Entry.ofOption ver.localizedDescription.get }

/-- App.add_version (model.py lines 488-495): replaces in place the
existing Version with the same `(version, buildVersion)` pair, otherwise
inserts at index 0; afterwards mirrors the added Version onto the
deprecated top-level fields.  A `None` versions value raises `TypeError`
when building the pair list; an absent `versions` key makes the insertion
act on the property's temporary default list (the catalog list is
unchanged) while the mirror update still happens. -/
def App.add_version (a : App) (ver : Version) : Except PyErr App :=
  match a.versions with
  | .null => .error .typeError
  | .absent => .ok (a.updateOldVersionUtil ver)
  | .val vs =>
    let pairs := vs.map (fun w => (w.version.get, w.buildVersion.get))
    let p := (ver.version.get, ver.buildVersion.get)
    let vs' :=
      match pairs.findIdx? (· == p) with
      | some i => vs.set i ver
      | none => ver :: vs
    .ok (({ a with versions := .val vs' }).updateOldVersionUtil ver)

/-- Identity key used by `AltSourceManager`
(`app.appID or app.bundleIdentifier`, with Python truthiness). -/
def App.key (a : App) : Option String :=
  pyOr a.appID.get a.bundleIdentifier.get

/-- The `appID` property setter (model.py lines 648-654): a non-string
value (here: `None`) raises `ArgumentTypeError`. -/
def App.setAppID (a : App) : Option String → Except PyErr App
  | none => .error .argumentTypeError
  | some s => .ok { a with appID := .val s }

/-- Version synthesized by App.__init__ from the legacy top-level fields
(model.py lines 416-423): each legacy value is stored under the new key,
present even when `None`. -/
def App.synthLegacyVersion (src : App) : Version :=
  { Version.blank with
    version := Entry.ofOption src.version.get,
    date := Entry.ofOption src.versionDate.get,
    downloadURL := Entry.ofOption src.downloadURL.get,
    localizedDescription := Entry.ofOption src.versionDescription.get,
    size := Entry.ofOption src.size.get }

/-- The `appPermissions` wrapping step of App.__init__ (model.py lines
412-413): a present `None` value becomes a brand-new empty Permissions
object, a present dict is wrapped as-is. -/
def App.initPerms (src : App) : App :=
  match src.appPermissions with
  | .absent => src
  | .null => { src with appPermissions := .val Permissions.empty }
  | .val p => { src with appPermissions := .val (Permissions.init (some p)) }

/-- App.__init__ on a source dict (model.py lines 409-427): wraps
`appPermissions` and `versions`; when the `versions` key is absent, a
single Version is synthesized from the legacy top-level fields (which the
permissions wrapping does not touch).  A `versions` key present with
`None` raises `TypeError` (iteration over `None`). -/
def App.init (src : App) : Except PyErr App :=
  match src.versions with
  | .null => .error .typeError
  | .val l => .ok { App.initPerms src with versions := .val l }
  | .absent =>
    .ok { App.initPerms src with versions := .val [App.synthLegacyVersion src] }

/-! ### AltSource (model.py lines 59, 763-922) -/

/-- AltSource: the catalog document.  The constructor always materializes
the `apps` list (`src.get("apps", [])`), so it is modelled as a plain list;
`news` keeps its three-state dict entry. -/
structure AltSource where
  name : Entry String
  identifier : Entry String
  apps : List App
  news : Entry (List Article)
  apiVersion : Entry String
deriving DecidableEq, Repr

/-- Required keys of an AltSource
(`_required_keys = ["name", "identifier", "apps"]`). -/
def AltSource.requiredKeys : List String := ["name", "identifier", "apps"]

/-- Key presence test on an AltSource dict; `apps` is always present after
construction. -/
def AltSource.hasKey (s : AltSource) : String → Bool
  | "name" => s.name.present
  | "identifier" => s.identifier.present
  | "apps" => true
  | "news" => s.news.present
  | "apiVersion" => s.apiVersion.present
  | _ => false

/-- AltSource.missing_keys. -/
def AltSource.missingKeys (s : AltSource) : List String :=
  AltSource.requiredKeys.filter (fun k => ! s.hasKey k)

/-- AltSource.is_valid (model.py lines 816-824): all apps valid, the news
(when not `None`) all valid, and no missing keys. -/
def AltSource.is_valid (s : AltSource) : Bool :=
  let validApps := s.apps.all App.is_valid
  let validNews :=
    match s.news.get with
    | none => true
    | some ns => ns.all Article.is_valid
  validApps && validNews && s.missingKeys.isEmpty

/-! ### Id helpers (helpers.py lines 52-78) -/

/-- One element of a caller-supplied `ids` list: a plain id string or a
single-entry remap dict (multi-entry dicts are not used by any caller in
the repository and are outside this model). -/
inductive IdEntry where
  | plain (s : String)
  | remap (k v : String)
deriving DecidableEq, Repr

/-- helpers.flatten_ids: flattens the mixed str/dict list, keeping dict
keys (`use_keys=True`) or dict values.  Called with `ids=None`, the list
comprehension iterates over `None` and raises `TypeError`. -/
def flatten_ids (ids : Option (List IdEntry)) (useKeys : Bool) :
    Except PyErr (List String) :=
  match ids with
  | none => .error .typeError
  | some l =>
    .ok ((l.map (fun e =>
      match e with
      | .plain s => [s]
      | .remap k v => if useKeys then [k] else [v])).flatten)

/-- helpers.gen_id_parse_table: combines the dict elements of `ids` into
one table (later entries override earlier ones on the same key, as in the
Python dict comprehension).  Called with `ids=None`, the comprehension
iterates over `None` and raises `TypeError`. -/
def gen_id_parse_table (ids : Option (List IdEntry)) :
    Except PyErr (List (String × String)) :=
  match ids with
  | none => .error .typeError
  | some l =>
    .ok (l.filterMap (fun e =>
      match e with
      | .plain _ => none
      | .remap k v => some (k, v)))

/-- Lookup `tbl[k]` in the combined table: the last binding of a key wins
(dict-comprehension override order); a missing key raises `KeyError`.
A `None` subscript also fails the lookup (no `None` key is ever stored). -/
def tblLookup (tbl : List (String × String)) (k : Option String) :
    Except PyErr String :=
  match k with
  | none => .error .keyError
  | some s =>
    match (tbl.reverse).find? (fun p => p.1 == s) with
    | none => .error .keyError
    | some p => .ok p.2

/-- Python `id in ids` where `ids` is the raw mixed str/dict list: a string
compares equal only to the plain string elements (a str never equals a
dict), and `None` equals none of them. -/
def idInRawList (k : Option String) (ids : List IdEntry) : Bool :=
  match k with
  | none => false
  | some s => ids.any (fun e =>
      match e with
      | .plain t => s == t
      | .remap _ _ => false)

/-- Python `id in fetch_ids` for an optional id against the flattened
string list. -/
def idInStrList (k : Option String) (l : List String) : Bool :=
  match k with
  | none => false
  | some s => l.contains s

/-! ### AltSourceParser (parsers.py lines 39-121) -/

/-- Loop state of `AltSourceParser.parse_apps`: the processed apps and the
identity keys already seen (a key can be `None`). -/
structure ParseAppsState where
  processedApps : List App
  processedKeys : List (Option String)
deriving Repr

/-- Body of the `for app in self.src.apps` loop of `parse_apps`
(parsers.py lines 81-103) for one app, acting on the loop state. -/
def parseAppsStep (ids : Option (List IdEntry)) (fetchIds : List String)
    (tbl : List (String × String)) (st : ParseAppsState) (app : App) :
    Except PyErr ParseAppsState := do
  if app.is_valid then
    let idv := pyOr app.appID.get app.bundleIdentifier.get
    -- the three placement branches; a `continue` skips the appID
    -- assignment and the key append
    match st.processedKeys.findIdx? (· == idv) with
    | some index => do
      -- duplicate of an already-processed app: keep the higher display
      -- version (parsers.py lines 84-89)
      let prev ←
        match st.processedApps[index]? with
        | none => .error .indexError
        | some p => pure p
      let prevV0 ← headVersion prev
      let currV0 ← headVersion app
      let pPrev ← parseVer prevV0.version.get
      let pCurr ← parseVer currV0.version.get
      if relGt pPrev pCurr then
        return st  -- continue: keep the previous app
      else
        let app' ← assignAppID ids tbl app idv
        return { processedApps := st.processedApps.set index app',
                 processedKeys := st.processedKeys ++ [idv] }
    | none =>
      if ids.isNone || idInStrList idv fetchIds then
        let app' ← assignAppID ids tbl app idv
        return { processedApps := st.processedApps ++ [app'],
                 processedKeys := st.processedKeys ++ [idv] }
      else
        return st  -- continue: app is not going to be included
  else
    return st  -- invalid app: warned and skipped
where
  /-- Evaluation of `app.versions[0]` used in the duplicate branch:
  indexing the property's `None` value raises `TypeError`, an empty list
  (also the default for an absent key) raises `IndexError`. -/
  headVersion (a : App) : Except PyErr Version :=
    match a.versionsProp with
    | none => .error .typeError
    | some vs =>
      match vs.head? with
      | none => .error .indexError
      | some v => pure v
  /-- appID assignment (parsers.py lines 95-99), run when the app has no
  appID yet: a verbatim filter hit maps the appID to the
  bundleIdentifier, otherwise the conversion table keyed by the
  bundleIdentifier supplies it. -/
  assignAppID (ids : Option (List IdEntry)) (tbl : List (String × String))
      (app : App) (idv : Option String) : Except PyErr App :=
    if app.appID.get = none then
      match ids with
      | none => app.setAppID app.bundleIdentifier.get
      | some l =>
        if idInRawList idv l then
          app.setAppID app.bundleIdentifier.get
        else do
          let v ← tblLookup tbl app.bundleIdentifier.get
          app.setAppID (some v)
    else
      pure app

/-- AltSourceParser.parse_apps (parsers.py lines 66-109): flattens the id
filter (raising `TypeError` when `ids` is `None`), builds the conversion
table, then walks the source apps accumulating the processed list. -/
def parse_apps (src : AltSource) (ids : Option (List IdEntry)) :
    Except PyErr (List App) := do
  let fetchIds ← flatten_ids ids true
  let tbl ← gen_id_parse_table ids
  let st ← src.apps.foldlM (parseAppsStep ids fetchIds tbl)
    { processedApps := [], processedKeys := [] }
  -- the missing-ids check only logs a warning
  return st.processedApps

/-- AltSourceParser.parse_news (parsers.py lines 111-121): with no news the
empty list is returned; a valid article is kept when `ids` is `None`, and
otherwise the code accesses the nonexistent `article.newsID` attribute and
raises `AttributeError`. -/
def parse_news (src : AltSource) (ids : Option (List IdEntry)) :
    Except PyErr (List Article) :=
  match src.news.get with
  | none => .ok []
  | some arts =>
    arts.foldlM (fun acc art =>
      if art.is_valid then
        match ids with
        | none => .ok (acc ++ [art])
        | some _ => .error .attributeError
      else
        .ok acc) []

/-! ### AltSourceManager.add (core.py lines 82-96) -/

/-- AltSourceManager.add: backfills a missing `appID` from the
`bundleIdentifier` (raising `ArgumentTypeError` when that is `None`),
rejects invalid apps and apps whose `appID` already occurs among the
existing identity keys, and otherwise appends. -/
def addApp (cat : AltSource) (app : App) : Except PyErr AltSource :=
  let norm : Except PyErr App :=
    if app.appID.get = none then app.setAppID app.bundleIdentifier.get
    else .ok app
  match norm with
  | .error e => .error e
  | .ok app =>
    if ! app.is_valid then
      .ok cat            -- logged error, no append
    else if (cat.apps.map App.key).contains app.appID.get then
      .ok cat            -- logged error: id already exists
    else
      .ok { cat with apps := cat.apps ++ [app] }

/-! ### AltSourceManager.update (core.py lines 98-215) -/

/-- Metadata returned by `parser.get_asset_metadata()` (via the external
IPA-inspection collaborator): the dict keys the update loop reads. -/
structure GhMetadata where
  size : Option Int
  sha256 : Option String
  version : Option String
  buildVersion : Option String
  downloadURL : Option String
  bundleIdentifier : Option String
  appPermissions : Option Permissions
deriving DecidableEq, Repr

/-- A constructed `GithubParser`/`Unc0verParser`: the release it resolved
(version tag after `ver_parse`, date, description, `prefer_date` flag) and
the outcome of its `get_asset_metadata()` call (the network and inspection
collaborators may fail). -/
structure GhParser where
  version : String
  versionDate : String
  versionDescription : String
  preferDate : Bool
  metadata : Except PyErr GhMetadata
deriving Repr

/-- One provider-configuration entry of `sources_data`, with the outcome of
instantiating its parser (network fetches happen in the constructors, so
the fetched document or the constructor's exception is carried as data). -/
inductive EntrySpec where
  /-- Parser.ALTSOURCE entry: the fetched catalog document (or the
  fetch/parse error), the id list, and the `getAllApps` / `getAllNews` /
  `ignoreNews` flags. -/
  | altsource (fetched : Except PyErr AltSource) (ids : Option (List IdEntry))
      (getAllApps getAllNews ignoreNews : Bool)
  /-- Parser.GITHUB or Parser.UNC0VER entry. -/
  | githubLike (fetched : Except PyErr GhParser) (ids : Option (List IdEntry))
  /-- An entry whose parser kind is none of the supported classes. -/
  | unknown (fetched : Except PyErr Unit)

/-- Enrichment collaborator for `update_props_from_new_version`
(model.py lines 938-947): maps a download URL to the extracted
(sha256, permissions) pair, or `none` for a broken link. -/
def EnrichOracle : Type := Option String → Option (String × Permissions)

/-- model.update_props_from_new_version: when the new Version lacks a hash
or the app lacks permissions, download the asset and backfill both; a
broken link only logs a warning and changes nothing. -/
def update_props_from_new_version (oracle : EnrichOracle) (app : App)
    (ver : Version) : App × Version :=
  if ver.sha256.get = none || app.appPermissions.get = none then
    match oracle ver.downloadURL.get with
    | none => (app, ver)
    | some (sha, perms) =>
      ({ app with appPermissions := .val perms },
       { ver with sha256 := .val sha })
  else
    (app, ver)

/-- Run state of one `update` call: the catalog being mutated in place and
the three counters. -/
structure UpdState where
  src : AltSource
  updatedApps : Nat
  addedApps : Nat
  addedNews : Nat
deriving Repr

/-- The identity snapshots `existingAppIDs` / `existingNewsIDs` taken once
at the start of `update` (core.py lines 106-107) and never refreshed. -/
structure Snapshot where
  appIDs : List (Option String)
  newsIDs : List (Option String)
deriving Repr

/-- Body of the `for app in apps` loop of the ALTSOURCE branch
(core.py lines 118-133) for one fetched app.  Returns the state reached
together with the exception raised, if any (the state before the raise is
kept: the loop mutates the catalog in place). -/
def mergeOneApp (oracle : EnrichOracle) (snap : Snapshot) (st : UpdState)
    (app : App) : UpdState × Option PyErr :=
  let bundleID := app.appID.get
  match snap.appIDs.findIdx? (· == bundleID) with
  | none =>
    -- new app: appended, added counter incremented
    ({ st with src := { st.src with apps := st.src.apps ++ [app] },
               addedApps := st.addedApps + 1 }, none)
  | some index =>
    match st.src.apps[index]? with
    | none => (st, some .indexError)   -- unreachable: appends only grow the list
    | some oldApp =>
      match app.latest_version false with
      | .error e => (st, some e)
      | .ok newVer =>
        match oldApp.latest_version false with
        | .error e => (st, some e)
        | .ok oldVer =>
          match Version.gt newVer oldVer with
          | .error e => (st, some e)
          | .ok false =>
            -- `app._src = old_app._src; apps[index] = app`: the slot keeps
            -- the existing content
            (st, none)
          | .ok true =>
            let st1 := { st with updatedApps := st.updatedApps + 1 }
            let (old1, newVer1) := update_props_from_new_version oracle oldApp newVer
            match old1.add_version newVer1 with
            | .error e =>
              -- the in-place mutations made so far survive the raise
              ({ st1 with src := { st1.src with
                  apps := st1.src.apps.set index old1 } }, some e)
            | .ok old2 =>
              ({ st1 with src := { st1.src with
                  apps := st1.src.apps.set index old2 } }, none)

/-- The full ALTSOURCE apps loop. -/
def mergeApps (oracle : EnrichOracle) (snap : Snapshot) :
    UpdState → List App → UpdState × Option PyErr
  | st, [] => (st, none)
  | st, app :: rest =>
    match mergeOneApp oracle snap st app with
    | (st', some e) => (st', some e)
    | (st', none) => mergeApps oracle snap st' rest

/-- Body of the news merge loop (core.py lines 137-143): an identifier
found in the start-of-run snapshot overwrites that slot, anything else is
appended and counted. -/
def mergeNews (snap : Snapshot) : UpdState → List Article → UpdState
  | st, [] => st
  | st, art :: rest =>
    let newsID := art.identifier.get
    let st' :=
      match snap.newsIDs.findIdx? (· == newsID) with
      | some index =>
        match st.src.news with
        | .val l => { st with src := { st.src with news := .val (l.set index art) } }
        | _ => st    -- unreachable: update starts by iterating the news list
      | none =>
        match st.src.news with
        | .val l => { st with src := { st.src with news := .val (l ++ [art]) },
                              addedNews := st.addedNews + 1 }
        | _ => st    -- unreachable
    mergeNews snap st' rest

/-- The GITHUB/UNC0VER branch for one target id (core.py lines 157-195). -/
def mergeGhOne (snap : Snapshot) (gh : GhParser) (st : UpdState)
    (id : String) : UpdState × Option PyErr :=
  match snap.appIDs.findIdx? (· == some id) with
  | none => (st, none)      -- id not in catalog: warned and skipped
  | some index =>
    match st.src.apps[index]? with
    | none => (st, some .indexError)   -- unreachable
    | some app =>
      -- core.py line 167: absoluteVersion (when truthy) overrides the
      -- display version of the stored newest Version
      match versionsHead app with
      | .error e => (st, some e)
      | .ok v0 =>
        match parseVer (pyOr v0.absoluteVersion.get v0.version.get) with
        | .error e => (st, some e)
        | .ok pStored =>
          match parseVer (some gh.version) with
          | .error e => (st, some e)
          | .ok pNew =>
            let cond1 := relLt pStored pNew
            let cond2 : Except PyErr Bool :=
              if cond1 then .ok true
              else if gh.preferDate then do
                let d1 ← dateParse v0.date.get
                let d2 ← dateParse (some gh.versionDate)
                pure (d1 < d2)
              else .ok false
            match cond2 with
            | .error e => (st, some e)
            | .ok false => (st, none)
            | .ok true =>
              match gh.metadata with
              | .error e => (st, some e)
              | .ok md =>
                let newVer : Version :=
                  { Version.blank with
                    absoluteVersion := .val gh.version,
                    date := .val gh.versionDate,
                    localizedDescription := .val gh.versionDescription,
                    size := Entry.ofOption md.size,
                    sha256 := Entry.ofOption md.sha256,
                    version := .val (pyOrS md.version gh.version),
                    buildVersion := Entry.ofOption md.buildVersion,
                    downloadURL := Entry.ofOption md.downloadURL }
                -- bundle-identifier change handling (core.py lines 183-188)
                let step : Except PyErr (App × Version) :=
                  match md.bundleIdentifier with
                  | none => .ok (app, newVer)     -- falsy: logged error only
                  | some b =>
                    if b = "" then .ok (app, newVer)
                    else if app.bundleIdentifier.get = some b then
                      .ok (app, newVer)
                    else
                      -- the setter's log line subscripts the dict directly:
                      -- a missing key raises KeyError
                      if app.bundleIdentifier.present then
                        let d := gh.versionDescription ++ bundleChangeNote
                        let newVer' := { newVer with localizedDescription := Entry.val d }
                        .ok ({ app with bundleIdentifier := .val b }, newVer')
                      else .error .keyError
                match step with
                | .error e => (st, some e)
                | .ok (app1, newVer1) =>
                  let app2 :=
                    if app1.appID.get = none then
                      { app1 with appID := .val id }
                    else app1
                  match app2.add_version newVer1 with
                  | .error e =>
                    ({ st with src := { st.src with
                        apps := st.src.apps.set index app2 } }, some e)
                  | .ok app3 =>
                    let app4 := { app3 with
                      appPermissions := .val (Permissions.init md.appPermissions) }
                    ({ st with
                        src := { st.src with apps := st.src.apps.set index app4 },
                        updatedApps := st.updatedApps + 1 }, none)
where
  /-- Evaluation of `app.versions[0]`. -/
  versionsHead (a : App) : Except PyErr Version :=
    match a.versionsProp with
    | none => .error .typeError
    | some vs =>
      match vs.head? with
      | none => .error .indexError
      | some v => pure v
  /-- The note appended to the description on a bundle-identifier change. -/
  bundleChangeNote : String :=
    "\n\nNOTE: BundleIdentifier changed in this version and automatic updates have been disabled until manual install occurs."

/-- The loop over the (at most one) flattened GITHUB/UNC0VER app ids. -/
def mergeGh (snap : Snapshot) (gh : GhParser) :
    UpdState → List String → UpdState × Option PyErr
  | st, [] => (st, none)
  | st, id :: rest =>
    match mergeGhOne snap gh st id with
    | (st', some e) => (st', some e)
    | (st', none) => mergeGh snap gh st' rest

/-- Processing of one configuration entry inside the `try` block of
`AltSourceManager.update` (core.py lines 111-197).  Returns the state
reached (in-place mutations survive a raise) and the exception, if any. -/
def processEntry (oracle : EnrichOracle) (snap : Snapshot) (st : UpdState) :
    EntrySpec → UpdState × Option PyErr
  | .altsource fetched ids getAllApps getAllNews ignoreNews =>
    match fetched with
    | .error e => (st, some e)
    | .ok src =>
      -- the AltSourceParser constructor validates the document
      if ! src.is_valid then (st, some .altSourceError)
      else
        match parse_apps src (if getAllApps then none else ids) with
        | .error e => (st, some e)
        | .ok apps =>
          match mergeApps oracle snap st apps with
          | (st', some e) => (st', some e)
          | (st', none) =>
            if ignoreNews then (st', none)
            else
              match parse_news src (if getAllNews then none else ids) with
              | .error e => (st', some e)
              | .ok arts => (mergeNews snap st' arts, none)
  | .githubLike fetched ids =>
    match fetched with
    | .error e => (st, some e)
    | .ok gh =>
      match ids with
      | none => (st, some .notImplementedError)
      | some l =>
        if l.length > 1 then (st, some .notImplementedError)
        else
          match flatten_ids (some l) false with
          | .error e => (st, some e)   -- unreachable for a non-None list
          | .ok appIds => mergeGh snap gh st appIds
  | .unknown fetched =>
    match fetched with
    | .error e => (st, some e)
    | .ok _ => (st, some .notImplementedError)

/-- The `for data in self.src_data` loop: a caught exception logs and
continues from the state reached; an uncaught one propagates out of
`update`. -/
def runEntries (oracle : EnrichOracle) (snap : Snapshot) :
    UpdState → List EntrySpec → Except PyErr UpdState
  | st, [] => .ok st
  | st, e :: rest =>
    match processEntry oracle snap st e with
    | (st', none) => runEntries oracle snap st' rest
    | (st', some err) =>
      if err.caught then runEntries oracle snap st' rest
      else .error err

/-- AltSourceManager.update (core.py lines 98-215): snapshots the existing
app and news identity keys (iterating a `None` news list raises
`TypeError` immediately), folds the configuration entries, and reports the
run summary (updated apps, added apps, added news). -/
def update (oracle : EnrichOracle) (cat : AltSource)
    (entries : List EntrySpec) : Except PyErr (AltSource × Nat × Nat × Nat) :=
  let appIDs := cat.apps.map App.key
  match cat.news.get with
  | none => .error .typeError
  | some newsList =>
    let snap : Snapshot :=
      { appIDs := appIDs, newsIDs := newsList.map (fun a => a.identifier.get) }
    match runEntries oracle snap
        { src := cat, updatedApps := 0, addedApps := 0, addedNews := 0 }
        entries with
    | .error e => .error e
    | .ok st => .ok (st.src, st.updatedApps, st.addedApps, st.addedNews)

/-! ### Concrete fixtures -/

/-- A structurally valid Version with the four required keys. -/
def mkValidVersion (ver dateN url : String) (sz : Int) : Version :=
  { Version.blank with
    version := .val ver
    date := .val dateN
    downloadURL := .val url
    size := .val sz }

/-- A Version carrying an absoluteVersion on top of the required keys. -/
def mkAbsVersion (absV ver : String) : Version :=
  { mkValidVersion ver "1" "u" 1 with absoluteVersion := .val absV }

/-- An App with the six required keys and the given versions list. -/
def mkApp (nm bundle : String) (vs : List Version) : App :=
  { App.blank with
    name := .val nm
    bundleIdentifier := .val bundle
    developerName := .val "dev"
    localizedDescription := .val "desc"
    iconURL := .val "icon"
    versions := .val vs }

/-- Enrichment oracle for a run where every download link is broken (the
backfill is a logged no-op). -/
def oracleNone : EnrichOracle := fun _ => none

/-- The first element of the `versions` property value. -/
def App.headVer (a : App) : Option Version :=
  a.versionsProp.bind List.head?

/-- A newest Version "2.0" used in the C6 scenarios. -/
def w20 : Version := mkValidVersion "2.0" "2" "u" 1

/-- An older Version "1.0". -/
def w10 : Version := mkValidVersion "1.0" "1" "u" 1

/-- A replacement for `w10`: same `(version, buildVersion)` pair, new
download URL, date and size. -/
def w10new : Version := mkValidVersion "1.0" "3" "u2" 2

/-- An App holding `[w20, w10]` with mirrors matching `w20`. -/
def appC6 : App :=
  { mkApp "Two" "com.example.two" [w20, w10] with
    version := .val "2.0"
    versionDate := .val "2"
    downloadURL := .val "u"
    size := .val 1 }

/-- The App produced by `appC6.add_version w10new`. -/
def appC6out : App :=
  { appC6 with
    versions := .val [w20, w10new]
    version := .val "1.0"
    versionDate := .val "3"
    versionDescription := .null
    downloadURL := .val "u2"
    size := .val 2 }

/-- An App with exactly one structurally valid Version, no legacy
top-level fields, no permissions object, and all six required keys. -/
def appSingleVersion : App :=
  mkApp "Solo" "com.example.solo" [mkValidVersion "1.0" "1" "u" 1]

/-- The spec's example legacy document `{bundleIdentifier: "a",
version: "1.0", downloadURL: "u", versionDate: "d", size: 10}`. -/
def srcC9 : App :=
  { App.blank with
    bundleIdentifier := .val "a"
    version := .val "1.0"
    downloadURL := .val "u"
    versionDate := .val "d"
    size := .val 10 }

/-- The App object produced by App.__init__ on `srcC9`. -/
def outC9 : App :=
  { App.initPerms srcC9 with versions := Entry.val [App.synthLegacyVersion srcC9] }

/-- A valid source App with `bundleIdentifier = "a.b.c"` and no appID. -/
def appABC : App := mkApp "ABC" "a.b.c" [w20, w10]

/-- A source document whose only App is `appABC`. -/
def srcC5 : AltSource :=
  { name := .val "S", identifier := .val "s.id", apps := [appABC],
    news := .absent, apiVersion := .val "v2" }

/-- A Version whose display version string is malformed (rejected by
`packaging.version.parse`). -/
def vJunk : Version := mkValidVersion "??bad??" "1" "u" 1

/-- Catalog App "x" whose newest Version has the malformed string. -/
def appE : App := { mkApp "E" "x" [vJunk] with appID := Entry.val "x" }

/-- A catalog holding `appE` and an empty news list. -/
def catC2 : AltSource :=
  { name := .val "Main", identifier := .val "m.id", apps := [appE],
    news := .val [], apiVersion := .val "v2" }

/-- A valid remote App "n", unknown to the catalog. -/
def appN : App := mkApp "N" "n" [w20, w10]

/-- A valid remote App "x" whose newest Version is "1.0". -/
def appX : App :=
  mkApp "X" "x" [mkValidVersion "1.0" "5" "u" 1, mkValidVersion "0.9" "4" "u" 1]

/-- A valid remote source carrying `appN` and `appX`. -/
def srcC2 : AltSource :=
  { name := .val "Remote", identifier := .val "r.id", apps := [appN, appX],
    news := .absent, apiVersion := .val "v2" }

/-- ALTSOURCE configuration entry fetching `srcC2` for ids "n" and "x". -/
def entryC2 : EntrySpec :=
  .altsource (.ok srcC2) (some [.plain "n", .plain "x"]) false false true

/-- `appN` after `parse_apps` assigns its appID. -/
def appNassigned : App := { appN with appID := Entry.val "n" }

/-- The catalog after the failed `entryC2`: `appN` was appended before the
version comparison for "x" raised. -/
def catC2after : AltSource := { catC2 with apps := [appE, appNassigned] }

/-- A valid remote App "m" with its source and configuration entry. -/
def appM : App := mkApp "M" "m" [w20, w10]

/-- Source carrying `appM`. -/
def srcM : AltSource :=
  { name := .val "RemoteM", identifier := .val "rm.id", apps := [appM],
    news := .absent, apiVersion := .val "v2" }

/-- ALTSOURCE configuration entry fetching `srcM` for id "m". -/
def entryM : EntrySpec :=
  .altsource (.ok srcM) (some [.plain "m"]) false false true

/-- `appM` after `parse_apps` assigns its appID. -/
def appMassigned : App := { appM with appID := Entry.val "m" }

/-- The catalog after running `[entryC2, entryM]`. -/
def catC2both : AltSource :=
  { catC2 with apps := [appE, appNassigned, appMassigned] }

/-- An empty catalog with an empty news list. -/
def catEmpty : AltSource :=
  { name := .val "Cat", identifier := .val "c.id", apps := [],
    news := .val [], apiVersion := .val "v2" }

/-- A valid remote App "d". -/
def appD : App := mkApp "D" "d" [w20, w10]

/-- Source carrying `appD`. -/
def srcD : AltSource :=
  { name := .val "R", identifier := .val "rr.id", apps := [appD],
    news := .absent, apiVersion := .val "v2" }

/-- ALTSOURCE configuration entry fetching `srcD` for id "d". -/
def entryD : EntrySpec :=
  .altsource (.ok srcD) (some [.plain "d"]) false false true

/-- `appD` after `parse_apps` assigns its appID. -/
def appDassigned : App := { appD with appID := Entry.val "d" }

/-- Asset metadata for a successfully resolved GitHub release. -/
def ghMd : GhMetadata :=
  { size := some 2, sha256 := some "h", version := some "2.0",
    buildVersion := none, downloadURL := some "u2",
    bundleIdentifier := some "d", appPermissions := none }

/-- A successfully constructed release-feed parser. -/
def ghOk : GhParser :=
  { version := "2.0", versionDate := "9", versionDescription := "rel",
    preferDate := false, metadata := .ok ghMd }

/-- An App holding only `w10`, input of the C6 witness. -/
def appOne : App := mkApp "One" "com.example.one" [w10]

/-- The App produced by `appOne.add_version w20`. -/
def appOneOut : App :=
  { appOne with
    versions := .val [w20, w10]
    version := .val "2.0"
    versionDate := .val "2"
    versionDescription := .null
    downloadURL := .val "u"
    size := .val 1 }

/-- A valid source App with `bundleIdentifier = "x.y.z"` and no appID. -/
def appXYZ : App := mkApp "XYZ" "x.y.z" [w20, w10]

/-- A source document whose only App is `appXYZ`. -/
def srcXYZ : AltSource :=
  { name := .val "T", identifier := .val "t.id", apps := [appXYZ],
    news := .absent, apiVersion := .val "v2" }

/-! ### Generic reduction lemmas -/

/-- Reduction of the Except monad's bind on a success value. -/
theorem exceptBind_ok {e a b : Type} (x : a) (f : a → Except e b) :
    (Except.ok x : Except e a) >>= f = f x := rfl

/-- Reduction of the Except monad's pure. -/
theorem exceptPure {e a : Type} (x : a) :
    (pure x : Except e a) = Except.ok x := rfl

/-! ### C1 - Version ordering with absoluteVersion on both sides -/

/-- Claim C1, counterexample.  With `absoluteVersion` equal on both sides
("1.0"), `Version.__gt__` still depends on the display `version` field:
the left Version with display "2.0" compares greater than the right one
with display "1.0", while the left Version with display "1.0" does not -
so the greater-than direction is not decided solely by `absoluteVersion`. -/
theorem c1_gt_depends_on_display_version :
    Version.gt (mkAbsVersion "1.0" "2.0") (mkAbsVersion "1.0" "1.0") = .ok true ∧
    Version.gt (mkAbsVersion "1.0" "1.0") (mkAbsVersion "1.0" "1.0") = .ok false ∧
    (mkAbsVersion "1.0" "2.0").absoluteVersion = (mkAbsVersion "1.0" "1.0").absoluteVersion ∧
    (mkAbsVersion "1.0" "2.0").version ≠ (mkAbsVersion "1.0" "1.0").version := by
  refine ⟨rfl, rfl, rfl, by decide⟩

/-- Claim C1, amended.  For Versions that both carry an `absoluteVersion`
(`x` on the left, `y` on the right): the less-than comparison is decided
solely by those fields - unconditionally, any two Version pairs agreeing
on them compare identically, and when both parse it returns exactly the
semantic-version comparison of `x` and `y` - while the greater-than
comparison returns true from `absoluteVersion` alone when `x` parses
strictly greater than `y`, and otherwise falls through to the
display-version/buildVersion comparison (model.py lines 289-295,
embedded as `Version.cmpDisplay relGt`). -/
theorem c1_amended_absoluteVersion_ordering
    (u v u2 v2 : Version) (x y : String) (px py : List Nat) :
    Version.lt { u with absoluteVersion := Entry.val x }
        { v with absoluteVersion := Entry.val y } =
      Version.lt { u2 with absoluteVersion := Entry.val x }
        { v2 with absoluteVersion := Entry.val y } ∧
    (relParse x = some px → relParse y = some py →
      Version.lt { u with absoluteVersion := Entry.val x }
          { v with absoluteVersion := Entry.val y } = .ok (relLt px py)) ∧
    (relParse x = some px → relParse y = some py → relGt px py = true →
      Version.gt { u with absoluteVersion := Entry.val x }
          { v with absoluteVersion := Entry.val y } = .ok true) ∧
    (relParse x = some px → relParse y = some py → relGt px py = false →
      Version.gt { u with absoluteVersion := Entry.val x }
          { v with absoluteVersion := Entry.val y } =
        Version.cmpDisplay relGt { u with absoluteVersion := Entry.val x }
          { v with absoluteVersion := Entry.val y }) := by
  refine ⟨rfl, ?_, ?_, ?_⟩
  · intro hx hy
    show (match parseVer (some x) with
      | .error e => .error e
      | .ok px =>
        match parseVer (some y) with
        | .error e => .error e
        | .ok py => .ok (relLt px py) : Except PyErr Bool) = .ok (relLt px py)
    simp only [parseVer, hx, hy]
  · intro hx hy hgt
    show (match parseVer (some x) with
      | .error e => .error e
      | .ok px =>
        match parseVer (some y) with
        | .error e => .error e
        | .ok py =>
          if relGt px py then .ok true
          else Version.cmpDisplay relGt
            { u with absoluteVersion := Entry.val x }
            { v with absoluteVersion := Entry.val y } : Except PyErr Bool) = .ok true
    simp only [parseVer, hx, hy, hgt, if_true]
  · intro hx hy hgt
    show (match parseVer (some x) with
      | .error e => .error e
      | .ok px =>
        match parseVer (some y) with
        | .error e => .error e
        | .ok py =>
          if relGt px py then .ok true
          else Version.cmpDisplay relGt
            { u with absoluteVersion := Entry.val x }
            { v with absoluteVersion := Entry.val y } : Except PyErr Bool) =
      Version.cmpDisplay relGt { u with absoluteVersion := Entry.val x }
        { v with absoluteVersion := Entry.val y }
    simp only [parseVer, hx, hy, hgt, Bool.false_eq_true, if_false]

/-- Witness for `c1_amended_absoluteVersion_ordering` at concrete inputs:
the strictly-greater pair ("2", "1") for the first three parts and the
non-greater pair ("1", "2") for the fall-through part. -/
theorem c1_amended_witness :
    Version.lt (mkAbsVersion "2" "0.1") (mkAbsVersion "1" "9") =
      Version.lt (mkAbsVersion "2" "77") (mkAbsVersion "1" "0.3") ∧
    Version.lt (mkAbsVersion "2" "0.1") (mkAbsVersion "1" "9") = .ok (relLt [2] [1]) ∧
    Version.gt (mkAbsVersion "2" "0.1") (mkAbsVersion "1" "9") = .ok true ∧
    Version.gt (mkAbsVersion "1" "9") (mkAbsVersion "2" "0.1") =
      Version.cmpDisplay relGt (mkAbsVersion "1" "9") (mkAbsVersion "2" "0.1") :=
  have h1 := c1_amended_absoluteVersion_ordering
    (mkValidVersion "0.1" "1" "u" 1) (mkValidVersion "9" "1" "u" 1)
    (mkValidVersion "77" "1" "u" 1) (mkValidVersion "0.3" "1" "u" 1)
    "2" "1" [2] [1]
  have h2 := c1_amended_absoluteVersion_ordering
    (mkValidVersion "9" "1" "u" 1) (mkValidVersion "0.1" "1" "u" 1)
    (mkValidVersion "9" "1" "u" 1) (mkValidVersion "0.1" "1" "u" 1)
    "1" "2" [1] [2]
  ⟨h1.1, h1.2.1 rfl rfl, h1.2.2.1 rfl rfl rfl, h2.2.2.2 rfl rfl rfl⟩

/-! ### C4 - App.is_valid and the single-version case -/

/-- Claim C4 (code bug).  An App with exactly one valid Version, valid
(absent) permissions and no missing required keys is reported invalid by
`App.is_valid`: the code demands `len(self.versions) > 1` (model.py line
474) instead of at least one, and the legacy-field fallback does not
apply because the deprecated top-level fields are absent. -/
theorem c4_single_valid_version_app_reported_invalid :
    App.is_valid appSingleVersion = false ∧
    appSingleVersion.versionsProp = some [mkValidVersion "1.0" "1" "u" 1] ∧
    Version.is_valid (mkValidVersion "1.0" "1" "u" 1) = true ∧
    appSingleVersion.missingKeys = [] ∧
    appSingleVersion.appPermissions.get = none := by
  refine ⟨rfl, rfl, rfl, rfl, rfl⟩

/-! ### C8 - parse_apps with ids = None -/

/-- Claim C8 (code bug).  For every loaded source document,
`parse_apps(None)` raises `TypeError` before any filtering happens:
`flatten_ids` (helpers.py line 62) iterates over the `None` ids value.
The call never returns the valid apps, although the function's own later
branches (parsers.py lines 90 and 96) and its caller (core.py line 117)
treat `ids=None` as the fetch-everything case. -/
theorem c8_parse_apps_none_raises (src : AltSource) :
    parse_apps src none = .error .typeError := rfl

/-! ### C9 - legacy-schema Version synthesis in App.__init__ -/

/-- Claim C9, confirmed.  Constructing an App from a document without a
`versions` key synthesizes exactly one Version, taking `version` from the
legacy `version` field, `date` from `versionDate`, `downloadURL` from
`downloadURL`, `localizedDescription` from `versionDescription` and
`size` from `size` (each key present on the new Version, holding `None`
when the legacy field is unset). -/
theorem c9_legacy_version_synthesis (src0 out : App)
    (h : App.init { src0 with versions := Entry.absent } = .ok out) :
    out.versionsProp.map List.length = some 1 ∧
    (App.headVer out).map (fun v => v.version) = some (Entry.ofOption src0.version.get) ∧
    (App.headVer out).map (fun v => v.date) = some (Entry.ofOption src0.versionDate.get) ∧
    (App.headVer out).map (fun v => v.downloadURL) = some (Entry.ofOption src0.downloadURL.get) ∧
    (App.headVer out).map (fun v => v.localizedDescription) = some (Entry.ofOption src0.versionDescription.get) ∧
    (App.headVer out).map (fun v => v.size) = some (Entry.ofOption src0.size.get) := by
  injection h with h
  subst h
  refine ⟨rfl, rfl, rfl, rfl, rfl, rfl⟩

/-- Witness for `c9_legacy_version_synthesis` at the spec's example
document. -/
theorem c9_witness :
    (App.headVer outC9).map (fun v => v.version) = some (Entry.val "1.0") ∧
    (App.headVer outC9).map (fun v => v.size) = some (Entry.val 10) :=
  ⟨(c9_legacy_version_synthesis srcC9 outC9 rfl).2.1,
   (c9_legacy_version_synthesis srcC9 outC9 rfl).2.2.2.2.2⟩

/-! ### C10 - App.latest_version without dates -/

/-- Claim C10, confirmed.  For any App whose versions list is non-empty,
`latest_version(use_dates=False)` returns exactly the element at index 0;
on an empty versions list the unguarded index access fails with
`IndexError`. -/
theorem c10_latest_version_head (a0 : App) (v : Version) (vs : List Version) :
    App.latest_version { a0 with versions := Entry.val (v :: vs) } false = .ok v ∧
    App.latest_version { a0 with versions := Entry.val [] } false = .error .indexError :=
  ⟨rfl, rfl⟩

/-! ### C6 - deprecated-field mirroring in add_version -/

/-- Claim C6, counterexample.  Adding `w10new`, whose
`(version, buildVersion)` pair matches the existing Version at index 1,
replaces it in place - and the deprecated mirror fields are then set from
the added Version ("1.0"), not from the newest Version at index 0
("2.0"). -/
theorem c6_replace_mirrors_added_not_newest :
    App.add_version appC6 w10new = .ok appC6out ∧
    appC6out.version = Entry.val "1.0" ∧
    (App.headVer appC6out).map (fun v => v.version) = some (Entry.val "2.0") ∧
    appC6out.versionsProp.map List.length = some 2 := by
  refine ⟨rfl, rfl, rfl, rfl⟩

/-- Claim C6, amended.  After `add_version(v)` the deprecated top-level
fields always mirror the fields of the Version `v` that was just added;
when the `(version, buildVersion)` pair was not already present, `v` is
inserted at index 0, so the mirrors then also equal the newest Version's
fields. -/
theorem c6_amended_mirrors_follow_added_version
    (a : App) (v : Version) (a' : App) (vs : List Version)
    (h : a.add_version v = .ok a') :
    a'.version = Entry.ofOption v.version.get ∧
    a'.size = Entry.ofOption v.size.get ∧
    a'.downloadURL = Entry.ofOption v.downloadURL.get ∧
    a'.versionDate = Entry.ofOption v.date.get ∧
    a'.versionDescription = Entry.ofOption v.localizedDescription.get ∧
    ((a.versions = Entry.val vs ∧
      (vs.map (fun w => (w.version.get, w.buildVersion.get))).findIdx?
        (· == (v.version.get, v.buildVersion.get)) = none) →
      a'.versions = Entry.val (v :: vs)) := by
  cases hv : a.versions with
  | null =>
    rw [App.add_version, hv] at h
    exact absurd h (by simp)
  | absent =>
    rw [App.add_version, hv] at h
    injection h with h
    subst h
    refine ⟨rfl, rfl, rfl, rfl, rfl, ?_⟩
    rintro ⟨h1, -⟩
    exact absurd h1 (by simp)
  | val l =>
    rw [App.add_version, hv] at h
    injection h with h
    subst h
    refine ⟨rfl, rfl, rfl, rfl, rfl, ?_⟩
    rintro ⟨h1, h2⟩
    injection h1 with h1
    subst h1
    simp only [App.updateOldVersionUtil, h2]

/-- Witness for `c6_amended_mirrors_follow_added_version`: adding the
fresh Version `w20` to an App holding only `w10`. -/
theorem c6_amended_witness :
    appOneOut.version = Entry.ofOption w20.version.get ∧
    appOneOut.versions = Entry.val [w20, w10] :=
  have hc := c6_amended_mirrors_follow_added_version appOne w20 appOneOut [w10] rfl
  ⟨hc.1, hc.2.2.2.2.2 ⟨rfl, rfl⟩⟩

/-! ### C5 - parse_apps with a remap filter entry -/

/-- Claim C5, counterexample.  With the filter `[{"x.y.z": "a.b.c"}]`,
the valid App whose `bundleIdentifier` is "a.b.c" (and which has no prior
appID) is not included at all: the fetch filter is built from the dict
keys (helpers.py line 62 with `use_keys=True`), so only an App whose
identity is "x.y.z" would match, and the returned list is empty. -/
theorem c5_remap_value_side_app_excluded :
    App.is_valid appABC = true ∧
    appABC.appID.get = none ∧
    appABC.bundleIdentifier.get = some "a.b.c" ∧
    parse_apps srcC5 (some [IdEntry.remap "x.y.z" "a.b.c"]) = .ok [] := by
  refine ⟨rfl, rfl, rfl, rfl⟩

/-- Claim C5, amended.  The roles in a remap entry are the reverse of the
claim: the dict key is the source-side id and the dict value the assigned
appID.  With filter `[{"x.y.z": "a.b.c"}]`, a valid source App whose
`bundleIdentifier` is "x.y.z" (with no prior appID) is included and is
assigned `appID = "a.b.c"` from the conversion table. -/
theorem c5_amended_remap_assigns_value_as_appID
    (src0 : AltSource) (a0 : App)
    (hv : App.is_valid
      { a0 with
        appID := Entry.absent
        bundleIdentifier := Entry.val "x.y.z" } = true) :
    parse_apps
      { src0 with
        apps := [{ a0 with
          appID := Entry.absent
          bundleIdentifier := Entry.val "x.y.z" }] }
      (some [IdEntry.remap "x.y.z" "a.b.c"]) =
    .ok [{ a0 with
           appID := Entry.val "a.b.c"
           bundleIdentifier := Entry.val "x.y.z" }] := by
  simp only [parse_apps, flatten_ids, gen_id_parse_table, List.foldlM,
    parseAppsStep, hv, exceptBind_ok, exceptPure]
  rfl

/-- Witness for `c5_amended_remap_assigns_value_as_appID` at the concrete
source `srcXYZ`. -/
theorem c5_amended_witness :
    parse_apps srcXYZ (some [IdEntry.remap "x.y.z" "a.b.c"]) =
      .ok [{ appXYZ with appID := Entry.val "a.b.c" }] :=
  c5_amended_remap_assigns_value_as_appID srcXYZ appXYZ rfl

/-! ### C2 - per-entry atomicity of update -/

/-- Claim C2, counterexample.  Processing `entryC2` fails with
`InvalidVersion` (the existing App's stored version string is malformed),
the error is caught and the run completes - but the catalog is not the
one from before the entry: the new App "n", appended by the failing entry
before the error, survives. -/
theorem c2_failed_entry_leaves_partial_mutation :
    (processEntry oracleNone { appIDs := [some "x"], newsIDs := [] }
        { src := catC2, updatedApps := 0, addedApps := 0, addedNews := 0 }
        entryC2).2 = some PyErr.invalidVersion ∧
    update oracleNone catC2 [entryC2] = .ok (catC2after, 0, 1, 0) ∧
    catC2after ≠ catC2 := by
  refine ⟨rfl, rfl, by decide⟩

/-- Claim C2, amended.  For every catalog, oracle and configuration
entry: when processing the entry from the start-of-run state raises an
exception of a caught class, the run is not aborted - the remaining
entries are processed starting from exactly the state (catalog and
counters) the failing entry had reached when it raised, with no rollback
of its mutations - and a run consisting of the failing entry alone still
completes with the summary counts taken from that reached state. -/
theorem c2_amended_caught_error_continues_without_rollback
    (oracle : EnrichOracle) (cat : AltSource) (ns : List Article)
    (hn : cat.news = Entry.val ns)
    (e : EntrySpec) (rest : List EntrySpec) (st' : UpdState) (err : PyErr)
    (hstep : processEntry oracle
        { appIDs := cat.apps.map App.key,
          newsIDs := ns.map (fun a => a.identifier.get) }
        { src := cat, updatedApps := 0, addedApps := 0, addedNews := 0 } e
        = (st', some err))
    (hcaught : err.caught = true) :
    update oracle cat (e :: rest) =
      (match runEntries oracle
          { appIDs := cat.apps.map App.key,
            newsIDs := ns.map (fun a => a.identifier.get) } st' rest with
        | .error e2 => .error e2
        | .ok st => .ok (st.src, st.updatedApps, st.addedApps, st.addedNews)) ∧
    update oracle cat [e] =
      .ok (st'.src, st'.updatedApps, st'.addedApps, st'.addedNews) := by
  have hget : cat.news.get = some ns := by rw [hn]; rfl
  constructor
  · simp only [update, hget, runEntries, hstep, hcaught, if_true]
  · simp only [update, hget, runEntries, hstep, hcaught, if_true]

/-- Witness for `c2_amended_caught_error_continues_without_rollback` at
the concrete failing entry `entryC2`: the single-entry run completes with
counts from the partially mutated state. -/
theorem c2_amended_witness :
    update oracleNone catC2 [entryC2] = .ok (catC2after, 0, 1, 0) :=
  (c2_amended_caught_error_continues_without_rollback oracleNone catC2 [] rfl
    entryC2 []
    { src := catC2after, updatedApps := 0, addedApps := 1, addedNews := 0 }
    PyErr.invalidVersion rfl rfl).2

/-! ### C3 - release-feed entries with zero or multiple ids -/

/-- Claim C3, counterexample.  A GITHUB entry carrying two ids raises
`NotImplementedError`, which none of the per-entry `except` clauses
catches: the whole run aborts, the subsequent (well-formed) entry is
never processed, and no run-summary counts are produced. -/
theorem c3_multi_id_entry_aborts_whole_run :
    update oracleNone catEmpty
      [.githubLike (.ok ghOk) (some [.plain "p", .plain "q"]), entryD] =
    .error .notImplementedError := rfl

/-- Claim C3, amended.  Supplying no ids value (`None`) or more than one
id to a GITHUB/UNC0VER entry raises `NotImplementedError`; the exception
is not caught at the per-entry boundary, so the whole merge run aborts
with it (no summary counts), whatever entries follow. -/
theorem c3_amended_bad_id_count_is_fatal_to_run
    (oracle : EnrichOracle) (cat : AltSource) (ns : List Article)
    (hn : cat.news = Entry.val ns) (gh : GhParser)
    (i j : IdEntry) (l : List IdEntry) (rest : List EntrySpec) :
    update oracle cat (.githubLike (.ok gh) (some (i :: j :: l)) :: rest) =
      .error .notImplementedError ∧
    update oracle cat (.githubLike (.ok gh) none :: rest) =
      .error .notImplementedError := by
  have hget : cat.news.get = some ns := by rw [hn]; rfl
  constructor
  · simp only [update, hget, runEntries, processEntry]
    rw [if_pos (by simp)]
    rfl
  · simp only [update, hget, runEntries, processEntry]
    rfl

/-- Witness for `c3_amended_bad_id_count_is_fatal_to_run` at a concrete
catalog and entry. -/
theorem c3_amended_witness :
    update oracleNone catEmpty
        [.githubLike (.ok ghOk) (some [.plain "p", .plain "q"])] =
      .error .notImplementedError ∧
    update oracleNone catEmpty [.githubLike (.ok ghOk) none] =
      .error .notImplementedError :=
  c3_amended_bad_id_count_is_fatal_to_run oracleNone catEmpty [] rfl ghOk
    (.plain "p") (.plain "q") [] []

/-! ### C7 - uniqueness of the App identity key -/

/-- Claim C7, counterexample.  `update` resolves identity against the
`existingAppIDs` snapshot taken at run start (core.py line 106) and never
refreshes it, so two configuration entries both delivering the unknown
App "d" each append it: the run ends with the identity key "d" occurring
twice in the catalog. -/
theorem c7_update_snapshot_allows_duplicate_keys :
    update oracleNone catEmpty [entryD, entryD] =
      .ok ({ catEmpty with apps := [appDassigned, appDassigned] }, 0, 2, 0) ∧
    ({ catEmpty with apps := [appDassigned, appDassigned] } : AltSource).apps.map App.key
      = [some "d", some "d"] ∧
    ¬ ([some "d", some "d"] : List (Option String)).Nodup := by
  refine ⟨rfl, rfl, by decide⟩

/-- Core of the `add` branch after appID normalization: when the final
app carries a nonempty string appID, a duplicate key is refused and an
append preserves key uniqueness. -/
theorem addApp_tail_preserves_unique_keys
    (cat : AltSource) (a2 : App) (cat' : AltSource) (t : String)
    (ht : t ≠ "") (ha2 : a2.appID.get = some t)
    (h : (if ! a2.is_valid then (.ok cat : Except PyErr AltSource)
          else if (cat.apps.map App.key).contains a2.appID.get then .ok cat
          else .ok { cat with apps := cat.apps ++ [a2] }) = .ok cat')
    (hU : (cat.apps.map App.key).Nodup) :
    (cat'.apps.map App.key).Nodup := by
  by_cases hval : a2.is_valid = true
  · rw [hval] at h
    simp only [Bool.not_true, if_false] at h
    by_cases hc : (cat.apps.map App.key).contains a2.appID.get = true
    · rw [if_pos hc] at h
      injection h with h
      subst h
      exact hU
    · rw [if_neg hc] at h
      injection h with h
      subst h
      have hkey : App.key a2 = some t := by
        unfold App.key pyOr
        rw [ha2]
        simp [ht]
      have hmem : some t ∉ cat.apps.map App.key := by
        intro hm
        exact hc (by rw [ha2]; exact List.elem_eq_true_of_mem hm)
      simp only [List.map_append, List.map_cons, List.map_nil, hkey]
      rw [List.nodup_append]
      exact ⟨hU, List.nodup_singleton _, by
        intro x hx hx1
        rw [List.mem_singleton] at hx1
        subst hx1
        exact hmem hx⟩
  · rw [eq_false_of_ne_true hval] at h
    simp only [Bool.not_false, if_true] at h
    injection h with h
    subst h
    exact hU

/-- Claim C7, amended.  `AltSourceManager.add` preserves key uniqueness
(for apps whose effective appID - the given one, or the
bundleIdentifier backfilled when it is missing - is a nonempty string):
an App whose key is already present is refused.  The `update` run does
not share this property (see the snapshot counterexample): it checks new
apps only against the keys present at run start. -/
theorem c7_amended_add_preserves_unique_keys
    (cat : AltSource) (app : App) (cat' : AltSource)
    (h : addApp cat app = .ok cat')
    (hU : (cat.apps.map App.key).Nodup)
    (hne : ∀ s, (app.appID.get = some s ∨
        (app.appID.get = none ∧ app.bundleIdentifier.get = some s)) → s ≠ "") :
    (cat'.apps.map App.key).Nodup := by
  unfold addApp at h
  by_cases hid : app.appID.get = none
  · rw [if_pos hid] at h
    cases hb : app.bundleIdentifier.get with
    | none =>
      rw [hb] at h
      exact absurd h (by simp [App.setAppID])
    | some t =>
      rw [hb] at h
      simp only [App.setAppID] at h
      exact addApp_tail_preserves_unique_keys cat
        { app with appID := Entry.val t } cat' t
        (hne t (Or.inr ⟨hid, hb⟩)) rfl h hU
  · rw [if_neg hid] at h
    obtain ⟨s, hs⟩ := Option.ne_none_iff_exists'.mp hid
    exact addApp_tail_preserves_unique_keys cat app cat' s
      (hne s (Or.inl hs)) hs h hU

/-- Witness for `c7_amended_add_preserves_unique_keys`: adding the App
"m" to a catalog already holding key "d". -/
theorem c7_amended_witness :
    (({ catEmpty with apps := [appDassigned, appMassigned] } : AltSource).apps.map
      App.key).Nodup :=
  c7_amended_add_preserves_unique_keys
    { catEmpty with apps := [appDassigned] } appM
    { catEmpty with apps := [appDassigned, appMassigned] }
    rfl (by decide)
    (by
      intro s hs
      rcases hs with h1 | ⟨-, h2⟩
      · exact Option.noConfusion h1
      · injection h2 with h2
        subst h2
        decide)
